import Mathlib

/-!
Verification of the listing-enrichment / filtering core of the
Investland-Bali-Properties automated dashboard.

The Python source operates on pandas dataframes.  All the operations the
claims are about are element-wise (masks, `.loc` assignments with aligned
masks, row-wise `apply`), so they are embedded row-wise: a dataframe cell
is a `Cell`, a dataframe row is a record of cells, and column presence
(`df.get(col)` / `col in df.columns` branches in the source) is an explicit
record of booleans.  Machine floats are modelled as exact rationals and
missing values (`None` / `NaN` / `NaT`) as `Option`/`Cell.null`.
-/

namespace Dashboard

/-- A dataframe cell: a true null (`None`/`NaN`), a number, or a string. -/
inductive Cell where
  | null : Cell
  | num (q : ℚ) : Cell
  | str (s : String) : Cell
deriving DecidableEq, Repr

/-! ### Numeric coercion (`pd.to_numeric(..., errors="coerce")`)

Strings are parsed as optionally signed decimal numerals (the fragment of
Python float syntax exercised by this repository); anything unparsable
coerces to null. -/

def digitVal (c : Char) : ℕ := c.toNat - 48

/-- Value of a digit list read as a base-10 natural; `none` if any char is
not a digit. The boolean-empty case is handled by callers. -/
def digitsToNat : List Char → Option ℕ
  | [] => some 0
  | c :: cs =>
    if c.isDigit then
      (digitsToNat cs).map (fun n => digitVal c * 10 ^ cs.length + n)
    else
      none

/-- Parse an unsigned decimal numeral (digits, optionally a dot and more
digits; at least one digit overall, as accepted by Python `float`). -/
def parseUnsigned (cs : List Char) : Option ℚ :=
  let intPart := cs.takeWhile (·.isDigit)
  let rest := cs.dropWhile (·.isDigit)
  match rest with
  | [] =>
    if intPart.isEmpty then none
    else (digitsToNat intPart).map (fun n => (n : ℚ))
  | '.' :: frac =>
    if frac.all (·.isDigit) && !(intPart.isEmpty && frac.isEmpty) then
      match digitsToNat intPart, digitsToNat frac with
      | some i, some f => some ((i : ℚ) + (f : ℚ) / (10 : ℚ) ^ frac.length)
      | _, _ => none
    else none
  | _ => none

/-- Strip leading and trailing whitespace (Python `str.strip`), as a
kernel-computable list operation. -/
def stripChars (cs : List Char) : List Char :=
  ((cs.dropWhile Char.isWhitespace).reverse.dropWhile Char.isWhitespace).reverse

/-- `str.strip()`. -/
def pyStrip (s : String) : String := ⟨stripChars s.data⟩

/-- `str.lower()`. -/
def strLower (s : String) : String := ⟨s.data.map Char.toLower⟩

/-- Parse a decimal numeral with optional sign, after stripping whitespace
(Python `float` strips its argument). -/
def parseRat (s : String) : Option ℚ :=
  match stripChars s.data with
  | '-' :: cs => (parseUnsigned cs).map Neg.neg
  | '+' :: cs => parseUnsigned cs
  | cs => parseUnsigned cs

/-- `pd.to_numeric(cell, errors="coerce")`: numbers pass through, strings
are parsed, everything else (incl. null) coerces to null. -/
def toNumeric : Cell → Option ℚ
  | Cell.null => none
  | Cell.num q => some q
  | Cell.str s => parseRat s

/-- Numeric coercion returning a `Cell` (`NaN` for failures), used when a
whole column is coerced in place. -/
def toNumericCell (c : Cell) : Cell :=
  match toNumeric c with
  | some q => Cell.num q
  | none => Cell.null

/-! ### String views of cells

`series.astype(str).str.lower()` turns a null into the literal text of the
missing marker (`"nan"`/`"none"`), never into one of the compared tokens,
and prints numbers; neither can equal `"for sale"` or a rent-period alias,
so the precise print format is immaterial to every claim. -/

/-- `cell.astype(str).str.lower()` for one cell. -/
def cellLower (c : Cell) : String :=
  match c with
  | Cell.null => "nan"
  | Cell.num q => strLower (toString q)
  | Cell.str s => strLower s

/-- `cell.astype(str).str.lower().str.strip()` for one cell. -/
def cellLowerStrip (c : Cell) : String := pyStrip (cellLower c)

/-- A cell of a column that may be absent: absent columns behave as a
null-valued column (`df.get` returning `None` is threaded through the
source's presence checks explicitly below where the control flow differs). -/
def getCell (present : Bool) (c : Cell) : Cell :=
  if present then c else Cell.null

/-! ### Enrichment row model (`src/data/enrichment.py`)

Fields are the source columns read by the enrichment functions under
verification; the `rent_price_year/week/day_idr`, `bedrooms` and
`bathrooms` columns are only numerically coerced and never read by any
claim-relevant derivation, so they are omitted from the record. -/

structure Row where
  listing_type : Cell
  price_idr : Cell
  sale_price_idr : Cell
  rent_price_month_idr : Cell
  rent_period : Cell
  rent_period_base : Cell
  ownership_type : Cell
  lease_duration : Cell
  lease_expiry_year : Cell
  description : Cell
  building_size_sqm : Cell
  land_size_sqm : Cell
deriving DecidableEq, Repr

/-- Which of the source columns exist in the input dataframe. -/
structure Cols where
  listing_type : Bool
  price_idr : Bool
  sale_price_idr : Bool
  rent_price_month_idr : Bool
  rent_period : Bool
  rent_period_base : Bool
  ownership_type : Bool
  lease_duration : Bool
  lease_expiry_year : Bool
  description : Bool
  building_size_sqm : Bool
  land_size_sqm : Bool
deriving DecidableEq, Repr

/-- The upfront numeric coercion loop of `enrich_listings` (the members of
its `numeric_cols` list that this model carries), applied when the column
is present. -/
def coerceNumericCols (cols : Cols) (r : Row) : Row :=
  { r with
    price_idr := if cols.price_idr then toNumericCell r.price_idr else r.price_idr
    sale_price_idr :=
      if cols.sale_price_idr then toNumericCell r.sale_price_idr else r.sale_price_idr
    rent_price_month_idr :=
      if cols.rent_price_month_idr then toNumericCell r.rent_price_month_idr
      else r.rent_price_month_idr
    building_size_sqm :=
      if cols.building_size_sqm then toNumericCell r.building_size_sqm else r.building_size_sqm
    land_size_sqm :=
      if cols.land_size_sqm then toNumericCell r.land_size_sqm else r.land_size_sqm
    lease_duration :=
      if cols.lease_duration then toNumericCell r.lease_duration else r.lease_duration
    lease_expiry_year :=
      if cols.lease_expiry_year then toNumericCell r.lease_expiry_year else r.lease_expiry_year }

/-- The sale-row mask of `_compute_price_sale_idr`:
`listing_type.astype(str).str.lower().eq("for sale")`, false everywhere if
the column is absent. -/
def saleMask (cols : Cols) (r : Row) : Bool :=
  cols.listing_type && (cellLower r.listing_type == "for sale")

/-- Row-wise `_compute_price_sale_idr`: the series starts null, sale rows
get `sale_price_idr` numerically, still-null sale rows get `price_idr`. -/
def computePriceSaleIdr (cols : Cols) (r : Row) : Option ℚ :=
  let mask := saleMask cols r
  let s1 : Option ℚ :=
    if cols.sale_price_idr && mask then toNumeric r.sale_price_idr else none
  if cols.price_idr && mask && s1.isNone then toNumeric r.price_idr else s1

def dailyAliases : List String := ["day", "daily", "harian"]
def weeklyAliases : List String := ["week", "weekly", "mingguan"]
def monthlyAliases : List String := ["month", "monthly", "bulanan"]
def yearlyAliases : List String := ["year", "yearly", "annual", "annually", "tahun"]

/-- Row-wise `_normalise_rent_month`. -/
def normaliseRentMonth (cols : Cols) (r : Row) : Option ℚ :=
  let rentNorm : Option ℚ :=
    if cols.rent_price_month_idr then toNumeric r.rent_price_month_idr else none
  let periodCell : Option Cell :=
    if cols.rent_period_base then some r.rent_period_base
    else if cols.rent_period then some r.rent_period
    else none
  let fallbackPrice : Option ℚ :=
    if cols.price_idr then toNumeric r.price_idr else rentNorm
  match periodCell with
  | none => rentNorm
  | some pc =>
    let period := cellLowerStrip pc
    let maskMissing := rentNorm.isNone && fallbackPrice.isSome
    if maskMissing && dailyAliases.contains period then
      fallbackPrice.map (· * 30)
    else if maskMissing && weeklyAliases.contains period then
      fallbackPrice.map (· * (43 / 10 : ℚ))
    else if maskMissing && monthlyAliases.contains period then
      fallbackPrice
    else if maskMissing && yearlyAliases.contains period then
      fallbackPrice.map (· / 12)
    else rentNorm

/-! ### Lease-years estimation (`_estimate_lease_years`) -/

/-- `np.clip(x, 1, 99)`. -/
def clip199 (q : ℚ) : ℚ := max 1 (min 99 q)

def leaseUnitTokens : List String := ["years", "year", "yrs", "yr", "th", "tahun"]

/-- After the digits and `\s*`, one of the case-insensitive year-unit
tokens of `LEASE_REGEX` must start here. -/
def unitAfterWs (cs : List Char) : Bool :=
  let tail := (cs.dropWhile (·.isWhitespace)).map Char.toLower
  leaseUnitTokens.any (fun t => t.toList.isPrefixOf tail)

/-- One attempted match of `LEASE_REGEX` = `(\d{1,2})\s*(years|year|yrs|yr|th|tahun)`
at the head of the char list: two digits are preferred, with backtracking
to one digit, as the regex engine does. -/
def leaseMatchHere (cs : List Char) : Option ℕ :=
  match cs with
  | [] => none
  | c1 :: rest1 =>
    if c1.isDigit then
      match rest1 with
      | c2 :: rest2 =>
        if c2.isDigit && unitAfterWs rest2 then
          some (10 * digitVal c1 + digitVal c2)
        else if unitAfterWs rest1 then
          some (digitVal c1)
        else none
      | [] => none
    else none

/-- `LEASE_REGEX.search`: first position (left to right) with a match;
returns the numeric capture group. -/
def leaseSearchList : List Char → Option ℕ
  | [] => none
  | c :: rest =>
    match leaseMatchHere (c :: rest) with
    | some n => some n
    | none => leaseSearchList rest

def leaseSearch (s : String) : Option ℕ := leaseSearchList s.toList

/-- `str(row.get("ownership_type", "") or "").lower()`: an absent column or
falsy cell gives `""`; a string cell is lower-cased; a numeric cell prints
(never equal to `"leasehold"`). -/
def ownershipLower (cols : Cols) (r : Row) : String :=
  if cols.ownership_type then
    match r.ownership_type with
    | Cell.null => ""
    | Cell.num q => strLower (toString q)
    | Cell.str s => strLower s
  else ""

/-- Row-wise `_estimate_lease_years` (pure in the injected current year). -/
def estimateLeaseYears (cols : Cols) (currentYear : ℚ) (r : Row) : Option ℚ :=
  if ownershipLower cols r ≠ "leasehold" then none
  else
    let fromDuration : Option ℚ :=
      if cols.lease_duration then
        match r.lease_duration with
        | Cell.null => none
        | Cell.num q => some (clip199 q)
        | Cell.str s =>
          match leaseSearch s with
          | some n => some (clip199 (n : ℚ))
          | none =>
            -- `float(lease_duration.strip())`; `parseRat` strips itself
            match parseRat s with
            | some q => some (clip199 q)
            | none => none
      else none
    match fromDuration with
    | some v => some v
    | none =>
      let fromExpiry : Option ℚ :=
        if cols.lease_expiry_year then
          match r.lease_expiry_year with
          | Cell.null => none
          | Cell.num q => if q - currentYear > 0 then some (clip199 (q - currentYear)) else none
          | Cell.str s =>
            match parseRat s with
            | some q => if q - currentYear > 0 then some (clip199 (q - currentYear)) else none
            | none => none
        else none
      match fromExpiry with
      | some v => some v
      | none =>
        if cols.description then
          match r.description with
          | Cell.str s =>
            match leaseSearch s with
            | some n => some (clip199 (n : ℚ))
            | none => none
          | _ => none
        else none

/-! ### Price per sqm (`_compute_price_per_sqm`) -/

/-- Element-wise division of two nullable series values; a null on either
side yields null (the denominator has already had `0` replaced by null). -/
def divOpt (a b : Option ℚ) : Option ℚ :=
  match a, b with
  | some x, some y => some (x / y)
  | _, _ => none

/-- `series.replace({0: np.nan})` on one value. -/
def zeroToNull (a : Option ℚ) : Option ℚ :=
  match a with
  | some x => if x = 0 then none else some x
  | none => none

/-- Row-wise `_compute_price_per_sqm`, taking the already-derived
`price_sale_idr` value of the row (the source reads it back from the
dataframe through `_to_numeric`, which is the identity on that numeric
column).  First component: building basis with land fallback; second:
land basis. -/
def computePricePerSqm (cols : Cols) (priceSale : Option ℚ) (r : Row) :
    Option ℚ × Option ℚ :=
  let building := toNumeric (getCell cols.building_size_sqm r.building_size_sqm)
  let land := toNumeric (getCell cols.land_size_sqm r.land_size_sqm)
  let ppsmBuilding := divOpt priceSale (zeroToNull building)
  let fallback := divOpt priceSale (zeroToNull land)
  let ppsm := match ppsmBuilding with
    | some v => some v
    | none => fallback
  (ppsm, divOpt priceSale (zeroToNull land))

/-! ### End-to-end per-row derivations of `enrich_listings`

`enrich_listings` first coerces the numeric columns in place (destroying
textual `lease_duration` values), then computes the derived fields. -/

/-- `price_sale_idr` as produced by `enrich_listings` for one row. -/
def enrichPriceSale (cols : Cols) (r : Row) : Option ℚ :=
  computePriceSaleIdr cols (coerceNumericCols cols r)

/-- `rent_price_month_idr_norm` as produced by `enrich_listings`. -/
def enrichRentNorm (cols : Cols) (r : Row) : Option ℚ :=
  normaliseRentMonth cols (coerceNumericCols cols r)

/-- `lease_years_remaining` as produced by `enrich_listings`. -/
def enrichLeaseYears (cols : Cols) (currentYear : ℚ) (r : Row) : Option ℚ :=
  estimateLeaseYears cols currentYear (coerceNumericCols cols r)

/-- `price_per_sqm_idr_calc` (and the land-basis column) as produced by
`enrich_listings`: the numeric coercion runs first, then `price_sale_idr`
is derived, then `_compute_price_per_sqm`. -/
def enrichPricePerSqm (cols : Cols) (r : Row) : Option ℚ × Option ℚ :=
  let w := coerceNumericCols cols r
  computePricePerSqm cols (computePriceSaleIdr cols w) w

/-- The all-null row, base for concrete instances. -/
def nullRow : Row :=
  ⟨Cell.null, Cell.null, Cell.null, Cell.null, Cell.null, Cell.null,
   Cell.null, Cell.null, Cell.null, Cell.null, Cell.null, Cell.null⟩

/-- A dataframe carrying every modelled column. -/
def allCols : Cols :=
  ⟨true, true, true, true, true, true, true, true, true, true, true, true⟩

/-- C3 failing input: a leasehold row whose `lease_duration` is the text
`"25 years"` and nothing else is set. -/
def leaseTextRow : Row :=
  { nullRow with
    ownership_type := Cell.str "Leasehold"
    lease_duration := Cell.str "25 years" }

/-- C4 concrete input: a sale row with zero building size. -/
def ppsmRow : Row :=
  { nullRow with
    listing_type := Cell.str "for sale"
    sale_price_idr := Cell.num 400000000
    building_size_sqm := Cell.num 0
    land_size_sqm := Cell.num 200 }

/-- C2 concrete inputs: a dataframe without the `rent_period_base` column,
a daily-period row with only a fallback price, and a row with a direct
monthly rent. -/
def rentCols : Cols := { allCols with rent_period_base := false }

def rentRowDaily : Row :=
  { nullRow with
    price_idr := Cell.num 100
    rent_period := Cell.str "daily" }

def rentRowKeep : Row :=
  { nullRow with
    rent_price_month_idr := Cell.num 999
    price_idr := Cell.num 100
    rent_period := Cell.str "daily" }

/-! ### Outlier flagging (`_flag_outliers`)

One monitored column of the enriched snapshot is a list of nullable
numbers; `df[col].quantile([lower, upper])` drops nulls and linearly
interpolates over the sorted values (the pandas/numpy default). -/

def insertAsc (x : ℚ) : List ℚ → List ℚ
  | [] => [x]
  | y :: ys => if x ≤ y then x :: y :: ys else y :: insertAsc x ys

def sortAsc : List ℚ → List ℚ
  | [] => []
  | x :: xs => insertAsc x (sortAsc xs)

/-- `Series.quantile(p)` with linear interpolation over the sorted
non-null values (meaningful when the list is non-empty):
`h = p*(n-1)`, result `s[⌊h⌋] + (h-⌊h⌋)*(s[⌊h⌋+1] - s[⌊h⌋])`. -/
def quantileLinear (vals : List ℚ) (p : ℚ) : ℚ :=
  let s := sortAsc vals
  let h : ℚ := p * ((s.length : ℚ) - 1)
  let i : ℕ := (⌊h⌋).toNat
  let lo := s.getD i 0
  let hi := s.getD (i + 1) lo
  lo + (h - (i : ℚ)) * (hi - lo)

/-- The non-null values of a column (`series.dropna()`). -/
def colVals (col : List (Option ℚ)) : List ℚ := col.filterMap id

/-- `_flag_outliers` for one monitored column that is present in the
dataframe: all-null columns get a constant-false flag column; otherwise a
row is flagged iff its value is non-null and strictly outside the
`[lower, upper]` quantile band of the full column. -/
def flagOutliersCol (col : List (Option ℚ)) (lower upper : ℚ) : List Bool :=
  if (colVals col).isEmpty then col.map (fun _ => false)
  else
    let qLow := quantileLinear (colVals col) lower
    let qHigh := quantileLinear (colVals col) upper
    col.map (fun c =>
      match c with
      | some v => decide (v < qLow ∨ qHigh < v)
      | none => false)

/-! ## Global filters (`src/data/filters.py`)

`apply_global_filters` runs a fixed sequence of row-local mask filters
over the enriched dataframe.  Rows are modelled with the columns the
filter reads (the enriched dataset guarantees `bedrooms` numeric and the
date columns datetime, so those fields are typed accordingly; the columns
the filter re-coerces itself stay `Cell`).  The price-range step calls
`Series.fillna(filtered.get("price_idr"))`, which raises `ValueError`
when the `price_idr` column is absent (`fillna` with value `None`); the
whole application is therefore `Option`-valued, `none` meaning the
exception.  No other step can raise, and the exception does not depend on
row contents, so checking it at its position in the sequence is
observationally faithful. -/

structure FRow where
  listing_type : Cell
  property_type : Cell
  area : Cell
  ownership_type : Cell
  property_status : Cell
  seller_type : Cell
  source_category : Cell
  listing_agency_type : Cell
  bedrooms : Option ℚ
  price_sale_idr : Cell
  price_idr : Cell
  rent_price_month_idr_norm : Cell
  building_size_sqm : Cell
  land_size_sqm : Cell
  listing_date_effective : Option ℤ
  listing_date : Option ℤ
  scraped_at : Option ℤ
  is_outlier_any : Bool
  price_per_sqm_idr_calc : Option ℚ
  ppsy_freehold_assumed : Option ℚ
deriving DecidableEq, Repr

/-- Which columns the filtered dataframe has. -/
structure FCols where
  listing_type : Bool
  property_type : Bool
  area : Bool
  ownership_type : Bool
  property_status : Bool
  seller_type : Bool
  source_category : Bool
  listing_agency_type : Bool
  bedrooms : Bool
  price_sale_idr : Bool
  price_idr : Bool
  rent_price_month_idr_norm : Bool
  building_size_sqm : Bool
  land_size_sqm : Bool
  listing_date_effective : Bool
  listing_date : Bool
  scraped_at : Bool
  is_outlier_any : Bool
  price_per_sqm_idr_calc : Bool
  ppsy_freehold_assumed : Bool
deriving DecidableEq, Repr

structure FDataFrame where
  cols : FCols
  rows : List FRow
deriving DecidableEq, Repr

/-- The `GlobalFilters` dataclass.  Date bounds are timestamps (`ℤ`),
money/size bounds rationals; `none` on an optional field is Python `None`
(falsy), and an explicitly empty list or string is likewise inactive per
Python truthiness, handled at each use site as the source does. -/
structure GlobalFilters where
  date_range : Option ℤ × Option ℤ
  date_granularity : String
  listing_type : Option String
  property_types : Option (List String)
  areas : Option (List String)
  bedrooms_bucket : Option (List String)
  ownership : Option (List String)
  property_status : Option (List String)
  seller_type : Option (List String)
  price_range : Option (Option ℚ × Option ℚ)
  rent_range : Option (Option ℚ × Option ℚ)
  building_size_range : Option (Option ℚ × Option ℚ)
  land_size_range : Option (Option ℚ × Option ℚ)
  currency : String
  hide_outliers : Bool
  basis_ppsy : String
  assumed_freehold_horizon : ℤ
  ppsy_toggle_freehold : Bool
deriving DecidableEq, Repr

def DEFAULT_FILTERS : GlobalFilters :=
  { date_range := (none, none)
    date_granularity := "M"
    listing_type := none
    property_types := none
    areas := none
    bedrooms_bucket := none
    ownership := none
    property_status := none
    seller_type := none
    price_range := none
    rent_range := none
    building_size_range := none
    land_size_range := none
    currency := "IDR"
    hide_outliers := false
    basis_ppsy := "building"
    assumed_freehold_horizon := 30
    ppsy_toggle_freehold := false }

/-- `series.isin(selection)` for one cell: only equal string values match
(null never matches). -/
def cellInSel (c : Cell) (sel : List String) : Bool :=
  match c with
  | Cell.str s => sel.contains s
  | _ => false

/-- The date anchor value of a row: first existing column among
`listing_date_effective`, `listing_date`, `scraped_at` (meaningful only
when one exists). -/
def rowDate (cols : FCols) (r : FRow) : Option ℤ :=
  if cols.listing_date_effective then r.listing_date_effective
  else if cols.listing_date then r.listing_date
  else r.scraped_at

/-- Date-range filtering: two sequential inclusive-bound mask filters on
the chosen date column; a null date compares false. -/
def dateStep (cols : FCols) (range : Option ℤ × Option ℤ) (rows : List FRow) :
    List FRow :=
  if cols.listing_date_effective || cols.listing_date || cols.scraped_at then
    let rows1 :=
      match range.1 with
      | some s => rows.filter (fun r =>
          match rowDate cols r with
          | some d => decide (s ≤ d)
          | none => false)
      | none => rows
    match range.2 with
    | some e => rows1.filter (fun r =>
        match rowDate cols r with
        | some d => decide (d ≤ e)
        | none => false)
    | none => rows1
  else rows

/-- Case-insensitive exact listing-type filter. -/
def listingTypeStep (cols : FCols) (lt : Option String) (rows : List FRow) :
    List FRow :=
  match lt with
  | some t =>
    if t ≠ "" && cols.listing_type then
      rows.filter (fun r => cellLower r.listing_type == strLower t)
    else rows
  | none => rows

/-- Generic set-membership filter (`property_type`, `area`,
`property_status`): inactive when the selection is `None`/empty or the
column is absent. -/
def isinStep (present : Bool) (sel : Option (List String)) (get : FRow → Cell)
    (rows : List FRow) : List FRow :=
  match sel with
  | some l =>
    if !l.isEmpty && present then rows.filter (fun r => cellInSel (get r) l)
    else rows
  | none => rows

/-- Ownership filter: when a `listing_type` column exists it applies only
to rows whose listing type is `"for sale"`; rentals are kept regardless of
their ownership value. -/
def ownershipStep (cols : FCols) (sel : Option (List String)) (rows : List FRow) :
    List FRow :=
  match sel with
  | some l =>
    if !l.isEmpty && cols.ownership_type then
      if cols.listing_type then
        rows.filter (fun r =>
          !(cellLower r.listing_type == "for sale") || cellInSel r.ownership_type l)
      else
        rows.filter (fun r => cellInSel r.ownership_type l)
    else rows
  | none => rows

/-- The seller value of a row: first existing column among `seller_type`,
`source_category`, `listing_agency_type`. -/
def sellerVal (cols : FCols) (r : FRow) : Cell :=
  if cols.seller_type then r.seller_type
  else if cols.source_category then r.source_category
  else r.listing_agency_type

def sellerStep (cols : FCols) (sel : Option (List String)) (rows : List FRow) :
    List FRow :=
  match sel with
  | some l =>
    if !l.isEmpty && (cols.seller_type || cols.source_category || cols.listing_agency_type) then
      rows.filter (fun r => cellInSel (sellerVal cols r) l)
    else rows
  | none => rows

/-- The named bedroom buckets; unknown bucket names are skipped. -/
def bucketRange : String → Option (Option ℚ × Option ℚ)
  | "1" => some (some 1, some 1)
  | "2" => some (some 2, some 2)
  | "3-4" => some (some 3, some 4)
  | "5+" => some (some 5, none)
  | _ => none

/-- One bucket mask: non-null bedrooms within the (optional) bounds. -/
def bedroomMask (r : FRow) (lohi : Option ℚ × Option ℚ) : Bool :=
  match r.bedrooms with
  | some b =>
    (match lohi.1 with | some lo => decide (lo ≤ b) | none => true) &&
    (match lohi.2 with | some hi => decide (b ≤ hi) | none => true)
  | none => false

/-- Bedrooms filter: union of the selected buckets; if every selected
bucket is unknown, no filtering happens. -/
def bedroomsStep (cols : FCols) (sel : Option (List String)) (rows : List FRow) :
    List FRow :=
  match sel with
  | some l =>
    if !l.isEmpty && cols.bedrooms then
      let ranges := l.filterMap bucketRange
      if ranges.isEmpty then rows
      else rows.filter (fun r => ranges.any (bedroomMask r))
    else rows
  | none => rows

/-- Generic inclusive numeric range filter on a re-coerced column
(`rent_price_month_idr_norm`, `building_size_sqm`, `land_size_sqm`):
null values compare false against a set bound. -/
def rangeStep (present : Bool) (range : Option (Option ℚ × Option ℚ))
    (get : FRow → Option ℚ) (rows : List FRow) : List FRow :=
  match range with
  | some (mn, mx) =>
    if present then
      let rows1 :=
        match mn with
        | some m => rows.filter (fun r =>
            match get r with
            | some v => decide (m ≤ v)
            | none => false)
        | none => rows
      match mx with
      | some m => rows1.filter (fun r =>
          match get r with
          | some v => decide (v ≤ m)
          | none => false)
      | none => rows1
    else rows
  | none => rows

/-- `fillna` of one cell with another. -/
def fillCell (a b : Cell) : Cell :=
  match a with
  | Cell.null => b
  | _ => a

/-- The effective price of a row for the sale-price filter:
`price_sale_idr` filled with `price_idr`, then numerically coerced. -/
def priceVal (r : FRow) : Option ℚ := toNumeric (fillCell r.price_sale_idr r.price_idr)

/-- The two inclusive-bound mask filters of the sale-price range step,
over the filled-and-coerced price series. -/
def priceFilterRows (mn mx : Option ℚ) (rows : List FRow) : List FRow :=
  let rows1 :=
    match mn with
    | some m => rows.filter (fun r =>
        match priceVal r with
        | some v => decide (m ≤ v)
        | none => false)
    | none => rows
  match mx with
  | some m => rows1.filter (fun r =>
      match priceVal r with
      | some v => decide (v ≤ m)
      | none => false)
  | none => rows1

/-- Sale-price range filter.  When active with a `price_sale_idr` column
but no `price_idr` column, the source calls `Series.fillna(None)` which
raises `ValueError`: modelled as `none`. -/
def priceStep (cols : FCols) (range : Option (Option ℚ × Option ℚ))
    (rows : List FRow) : Option (List FRow) :=
  match range with
  | some (mn, mx) =>
    if cols.price_sale_idr then
      if cols.price_idr then some (priceFilterRows mn mx rows)
      else none
    else some rows
  | none => some rows

/-- Hide-outliers switch. -/
def outlierStep (present : Bool) (hide : Bool) (rows : List FRow) : List FRow :=
  if hide && present then rows.filter (fun r => !r.is_outlier_any) else rows

/-- The row rewrite of the final step: recompute the assumed-freehold PPSY
column from `price_per_sqm_idr_calc` and the caller's horizon. -/
def ppsyUpdRow (horizon : ℤ) (r : FRow) : FRow :=
  { r with ppsy_freehold_assumed :=
      r.price_per_sqm_idr_calc.map (fun v => v / (horizon : ℚ)) }

/-- Steps before the price filter, in source order. -/
def preRows (cols : FCols) (f : GlobalFilters) (rows : List FRow) : List FRow :=
  bedroomsStep cols f.bedrooms_bucket
    (sellerStep cols f.seller_type
      (isinStep cols.property_status f.property_status (fun r => r.property_status)
        (ownershipStep cols f.ownership
          (isinStep cols.area f.areas (fun r => r.area)
            (isinStep cols.property_type f.property_types (fun r => r.property_type)
              (listingTypeStep cols f.listing_type
                (dateStep cols f.date_range rows)))))))

/-- Steps after the price filter, in source order. -/
def postRows (cols : FCols) (f : GlobalFilters) (rows : List FRow) : List FRow :=
  outlierStep cols.is_outlier_any f.hide_outliers
    (rangeStep cols.land_size_sqm f.land_size_range (fun r => toNumeric r.land_size_sqm)
      (rangeStep cols.building_size_sqm f.building_size_range
        (fun r => toNumeric r.building_size_sqm)
        (rangeStep cols.rent_price_month_idr_norm f.rent_range
          (fun r => toNumeric r.rent_price_month_idr_norm) rows)))

/-- The filtered row list (without the final column append), `none` on the
price-step exception. -/
def pipeRows (cols : FCols) (f : GlobalFilters) (rows : List FRow) :
    Option (List FRow) :=
  match priceStep cols f.price_range (preRows cols f rows) with
  | none => none
  | some rs => some (postRows cols f rs)

/-- `apply_global_filters`. -/
def applyGlobalFilters (df : FDataFrame) (f : GlobalFilters) : Option FDataFrame :=
  if df.rows.isEmpty then some df
  else
    match pipeRows df.cols f df.rows with
    | none => none
    | some rs =>
      if 0 < f.assumed_freehold_horizon ∧ df.cols.price_per_sqm_idr_calc = true then
        some ⟨{ df.cols with ppsy_freehold_assumed := true },
              rs.map (ppsyUpdRow f.assumed_freehold_horizon)⟩
      else some ⟨df.cols, rs⟩

/-- One additional constraint added to a filter spec: exactly one filter
field moves from its unset/default value to an active value, every other
field unchanged. -/
inductive Tightens : GlobalFilters → GlobalFilters → Prop where
  | dateStart (S : GlobalFilters) (t : ℤ) (h : S.date_range.1 = none) :
      Tightens { S with date_range := (some t, S.date_range.2) } S
  | dateEnd (S : GlobalFilters) (t : ℤ) (h : S.date_range.2 = none) :
      Tightens { S with date_range := (S.date_range.1, some t) } S
  | listingType (S : GlobalFilters) (t : String) (h : S.listing_type = none) :
      Tightens { S with listing_type := some t } S
  | propertyTypes (S : GlobalFilters) (l : List String) (h : S.property_types = none) :
      Tightens { S with property_types := some l } S
  | areas (S : GlobalFilters) (l : List String) (h : S.areas = none) :
      Tightens { S with areas := some l } S
  | bedroomsBucket (S : GlobalFilters) (l : List String) (h : S.bedrooms_bucket = none) :
      Tightens { S with bedrooms_bucket := some l } S
  | ownership (S : GlobalFilters) (l : List String) (h : S.ownership = none) :
      Tightens { S with ownership := some l } S
  | propertyStatus (S : GlobalFilters) (l : List String) (h : S.property_status = none) :
      Tightens { S with property_status := some l } S
  | sellerType (S : GlobalFilters) (l : List String) (h : S.seller_type = none) :
      Tightens { S with seller_type := some l } S
  | priceRange (S : GlobalFilters) (rng : Option ℚ × Option ℚ) (h : S.price_range = none) :
      Tightens { S with price_range := some rng } S
  | rentRange (S : GlobalFilters) (rng : Option ℚ × Option ℚ) (h : S.rent_range = none) :
      Tightens { S with rent_range := some rng } S
  | buildingSizeRange (S : GlobalFilters) (rng : Option ℚ × Option ℚ)
      (h : S.building_size_range = none) :
      Tightens { S with building_size_range := some rng } S
  | landSizeRange (S : GlobalFilters) (rng : Option ℚ × Option ℚ)
      (h : S.land_size_range = none) :
      Tightens { S with land_size_range := some rng } S
  | hideOutliers (S : GlobalFilters) (h : S.hide_outliers = false) :
      Tightens { S with hide_outliers := true } S

/-! ### Concrete filter inputs for witnesses and the counterexample -/

/-- An all-null filter row. -/
def nullFRow : FRow :=
  ⟨Cell.null, Cell.null, Cell.null, Cell.null, Cell.null, Cell.null, Cell.null,
   Cell.null, none, Cell.null, Cell.null, Cell.null, Cell.null, Cell.null,
   none, none, none, false, none, none⟩

/-- A dataframe with none of the modelled columns. -/
def noFCols : FCols :=
  ⟨false, false, false, false, false, false, false, false, false, false,
   false, false, false, false, false, false, false, false, false, false⟩

def saleFRow : FRow :=
  { nullFRow with
    listing_type := Cell.str "for sale"
    ownership_type := Cell.str "Leasehold" }

def rentFRow : FRow :=
  { nullFRow with
    listing_type := Cell.str "for rent"
    ownership_type := Cell.str "Leasehold" }

/-- Dataframe for the C7/C8 witnesses: a sale row and a rent row, with
`listing_type` and `ownership_type` columns. -/
def dfW : FDataFrame :=
  ⟨{ noFCols with listing_type := true, ownership_type := true },
   [saleFRow, rentFRow]⟩

/-- The C8 witness spec: the default spec plus a listing-type constraint. -/
def tightSpec : GlobalFilters := { DEFAULT_FILTERS with listing_type := some "for sale" }

/-- C8 counterexample dataframe: has `price_sale_idr` but no `price_idr`
column. -/
def dfP : FDataFrame :=
  ⟨{ noFCols with price_sale_idr := true },
   [{ nullFRow with price_sale_idr := Cell.num 500 }]⟩

/-- C8 counterexample spec: the default spec plus a price lower bound. -/
def priceTightSpec : GlobalFilters :=
  { DEFAULT_FILTERS with price_range := some (some 0, none) }

/-- C10 witness dataframe: one row with a `price_per_sqm_idr_calc`
column. -/
def dfC10 : FDataFrame :=
  ⟨{ noFCols with price_per_sqm_idr_calc := true },
   [{ nullFRow with price_per_sqm_idr_calc := some 60 }]⟩

/-! ## Loader normalization and datetime parsing (`src/data/loader.py`)

`_load_data_impl` normalizes sentinel strings to null over the whole
dataframe first, then multi-parses the `scraped_at` column and records a
per-row parse-failure reason.  The concrete datetime parsers are pandas
library behaviour, so the embedding takes them as explicit function
arguments (`generic` for the flexible `pd.to_datetime` parse, `patterns`
for the `SCRAPED_AT_PATTERNS` format attempts, tried in order); `None`/
`NaN` cells parse to `NaT` and format parsing of non-string cells coerces
to `NaT` regardless of the parser, which is hard-coded. -/

def SENTINELS : List String :=
  ["", "None", "none", "N/A", "n/a", "NA", "na", "null", "Null", "-", "—"]

/-- `_normalize_sentinels` on one cell of an object column: a string that
strips to a sentinel token becomes null. -/
def normalizeSentinelCell (c : Cell) : Cell :=
  match c with
  | Cell.str s => if SENTINELS.contains (pyStrip s) then Cell.null else c
  | _ => c

/-- First format pattern (in `SCRAPED_AT_PATTERNS` order) that parses the
string. -/
def firstPattern : List (String → Option ℤ) → String → Option ℤ
  | [], _ => none
  | p :: ps, s =>
    match p s with
    | some t => some t
    | none => firstPattern ps s

/-- The flexible `pd.to_datetime(..., errors="coerce")` pass: null cells
are `NaT` regardless of the parser. -/
def genericParse (generic : Cell → Option ℤ) (c : Cell) : Option ℤ :=
  match c with
  | Cell.null => none
  | Cell.num q => generic (Cell.num q)
  | Cell.str s => generic (Cell.str s)

/-- The format-pattern retries: only string cells can match an explicit
format (`errors="coerce"` turns everything else into `NaT`). -/
def patternParse (patterns : List (String → Option ℤ)) (c : Cell) : Option ℤ :=
  match c with
  | Cell.str s => firstPattern patterns s
  | _ => none

/-- The parsed value of one cell: generic parse first, then the format
patterns for still-unparsed cells. -/
def parsedCell (generic : Cell → Option ℤ) (patterns : List (String → Option ℤ))
    (c : Cell) : Option ℤ :=
  match genericParse generic c with
  | some t => some t
  | none => patternParse patterns c

/-- The failure classification (`"sentinel"` / `"blank"` /
`"unparsed_format"`) of one cell that remains unparsed; null cells are
never classified (`raw.notna()` gates the failure loop). -/
def failReason (generic : Cell → Option ℤ) (patterns : List (String → Option ℤ))
    (c : Cell) : Option String :=
  match parsedCell generic patterns c with
  | some _ => none
  | none =>
    match c with
    | Cell.null => none
    | Cell.str s =>
      if SENTINELS.contains (pyStrip s) then some "sentinel"
      else if pyStrip s = "" then some "blank"
      else some "unparsed_format"
    | Cell.num _ => some "unparsed_format"

/-- `_multi_parse_datetime` for one cell. -/
def multiParseCell (generic : Cell → Option ℤ) (patterns : List (String → Option ℤ))
    (c : Cell) : Option ℤ × Option String :=
  (parsedCell generic patterns c, failReason generic patterns c)

/-- `_multi_parse_datetime` over a column: parsed values and failure
reasons. -/
def multiParseDatetime (generic : Cell → Option ℤ)
    (patterns : List (String → Option ℤ)) (raw : List Cell) :
    List (Option ℤ) × List (Option String) :=
  (raw.map (fun c => (multiParseCell generic patterns c).1),
   raw.map (fun c => (multiParseCell generic patterns c).2))

/-- The `scraped_at` portion of `_load_data_impl`: sentinel normalization
over the column, then the multi-parse. -/
def loadScrapedAt (generic : Cell → Option ℤ)
    (patterns : List (String → Option ℤ)) (raw : List Cell) :
    List (Option ℤ) × List (Option String) :=
  multiParseDatetime generic patterns (raw.map normalizeSentinelCell)

/-- A datetime parser instance that accepts nothing (used for concrete
rows whose cells no real parser accepts). -/
def noParse : Cell → Option ℤ := fun _ => none

/-! ## Currency projection (`src/ui/utils/currency.py`) -/

def FX_RATE_DEFAULT : ℚ := 15000

/-- `series_to_currency`: IDR passes through; otherwise, if a fallback
(USD) series is given and has ANY non-null entry it is returned whole;
otherwise the IDR series is divided element-wise by the fx rate. -/
def seriesToCurrency (series : List (Option ℚ)) (target : String)
    (fallback : Option (List (Option ℚ))) (fxRate : ℚ) : List (Option ℚ) :=
  if target = "IDR" then series
  else
    match fallback with
    | some fb =>
      if fb.any (fun v => v.isSome) then fb
      else series.map (fun v => v.map (fun x => x / fxRate))
    | none => series.map (fun v => v.map (fun x => x / fxRate))

/-- `scalar_to_currency`. -/
def scalarToCurrency (value : Option ℚ) (target : String)
    (fallbackValue : Option ℚ) (fxRate : ℚ) : Option ℚ :=
  match value with
  | none => if target = "USD" then fallbackValue else none
  | some v =>
    if target = "IDR" then some v
    else
      match fallbackValue with
      | some fb => some fb
      | none => some (v / fxRate)

/-! ### Helper lemmas -/

theorem toNumeric_null : toNumeric Cell.null = none := rfl

theorem toNumeric_toNumericCell (c : Cell) : toNumeric (toNumericCell c) = toNumeric c := by
  unfold toNumericCell
  cases h : toNumeric c <;> simp [toNumeric, h]

theorem divOpt_zeroToNull_char (price b l : Option ℚ) :
    (match divOpt price (zeroToNull b) with
     | some v => some v
     | none => divOpt price (zeroToNull l)) =
    (match b with
     | some bv =>
        if bv = 0 then divOpt price (zeroToNull l) else divOpt price (some bv)
     | none => divOpt price (zeroToNull l)) := by
  cases price <;> cases b <;> cases l <;>
    simp [divOpt, zeroToNull] <;> split_ifs <;> simp [divOpt]

theorem toNumeric_getCell_coerce_building (cols : Cols) (r : Row) :
    toNumeric (getCell cols.building_size_sqm
      ((coerceNumericCols cols r).building_size_sqm)) =
    toNumeric (getCell cols.building_size_sqm r.building_size_sqm) := by
  cases hc : cols.building_size_sqm <;>
    simp [getCell, coerceNumericCols, hc, toNumeric_toNumericCell]

theorem toNumeric_getCell_coerce_land (cols : Cols) (r : Row) :
    toNumeric (getCell cols.land_size_sqm
      ((coerceNumericCols cols r).land_size_sqm)) =
    toNumeric (getCell cols.land_size_sqm r.land_size_sqm) := by
  cases hc : cols.land_size_sqm <;>
    simp [getCell, coerceNumericCols, hc, toNumeric_toNumericCell]

/-! ### Filter step lemmas: each step only removes rows (sublist) and
preserves sublists. -/
theorem dateStep_sublist (cols : FCols) (range : Option ℤ × Option ℤ)
    (rows : List FRow) : List.Sublist (dateStep cols range rows) rows := by
  unfold dateStep
  repeat' split
  all_goals
    first
      | exact List.Sublist.refl _
      | exact List.filter_sublist _
      | exact ((List.filter_sublist _).trans (List.filter_sublist _))

theorem dateStep_mono (cols : FCols) (range : Option ℤ × Option ℤ)
    {l₁ l₂ : List FRow} (h : List.Sublist l₁ l₂) :
    List.Sublist (dateStep cols range l₁) (dateStep cols range l₂) := by
  unfold dateStep
  repeat' split
  all_goals first | exact h | exact h.filter _ | exact (h.filter _).filter _

theorem dateStep_tighten_start (cols : FCols) (t : ℤ) (b : Option ℤ)
    (rows : List FRow) :
    List.Sublist (dateStep cols (some t, b) rows) (dateStep cols (none, b) rows) := by
  by_cases hc : (cols.listing_date_effective || cols.listing_date || cols.scraped_at) = true
  · simp only [dateStep, hc, if_true]
    cases b <;> dsimp only
    · exact List.filter_sublist _
    · exact (List.filter_sublist _).filter _
  · simp only [dateStep]
    rw [if_neg hc, if_neg hc]

theorem dateStep_tighten_end (cols : FCols) (a : Option ℤ) (t : ℤ)
    (rows : List FRow) :
    List.Sublist (dateStep cols (a, some t) rows) (dateStep cols (a, none) rows) := by
  by_cases hc : (cols.listing_date_effective || cols.listing_date || cols.scraped_at) = true
  · simp only [dateStep, hc, if_true]
    cases a <;> dsimp only <;> exact List.filter_sublist _
  · simp only [dateStep]
    rw [if_neg hc, if_neg hc]

theorem listingTypeStep_sublist (cols : FCols) (lt : Option String)
    (rows : List FRow) : List.Sublist (listingTypeStep cols lt rows) rows := by
  unfold listingTypeStep
  repeat' split
  all_goals first | exact List.Sublist.refl _ | exact List.filter_sublist _

theorem listingTypeStep_mono (cols : FCols) (lt : Option String)
    {l₁ l₂ : List FRow} (h : List.Sublist l₁ l₂) :
    List.Sublist (listingTypeStep cols lt l₁) (listingTypeStep cols lt l₂) := by
  unfold listingTypeStep
  repeat' split
  all_goals first | exact h | exact h.filter _

theorem isinStep_sublist (present : Bool) (sel : Option (List String))
    (get : FRow → Cell) (rows : List FRow) :
    List.Sublist (isinStep present sel get rows) rows := by
  unfold isinStep
  repeat' split
  all_goals first | exact List.Sublist.refl _ | exact List.filter_sublist _

theorem isinStep_mono (present : Bool) (sel : Option (List String))
    (get : FRow → Cell) {l₁ l₂ : List FRow} (h : List.Sublist l₁ l₂) :
    List.Sublist (isinStep present sel get l₁) (isinStep present sel get l₂) := by
  unfold isinStep
  repeat' split
  all_goals first | exact h | exact h.filter _

theorem ownershipStep_sublist (cols : FCols) (sel : Option (List String))
    (rows : List FRow) : List.Sublist (ownershipStep cols sel rows) rows := by
  unfold ownershipStep
  repeat' split
  all_goals first | exact List.Sublist.refl _ | exact List.filter_sublist _

theorem ownershipStep_mono (cols : FCols) (sel : Option (List String))
    {l₁ l₂ : List FRow} (h : List.Sublist l₁ l₂) :
    List.Sublist (ownershipStep cols sel l₁) (ownershipStep cols sel l₂) := by
  unfold ownershipStep
  repeat' split
  all_goals first | exact h | exact h.filter _

theorem sellerStep_sublist (cols : FCols) (sel : Option (List String))
    (rows : List FRow) : List.Sublist (sellerStep cols sel rows) rows := by
  unfold sellerStep
  repeat' split
  all_goals first | exact List.Sublist.refl _ | exact List.filter_sublist _

theorem sellerStep_mono (cols : FCols) (sel : Option (List String))
    {l₁ l₂ : List FRow} (h : List.Sublist l₁ l₂) :
    List.Sublist (sellerStep cols sel l₁) (sellerStep cols sel l₂) := by
  unfold sellerStep
  repeat' split
  all_goals first | exact h | exact h.filter _

theorem bedroomsStep_sublist (cols : FCols) (sel : Option (List String))
    (rows : List FRow) : List.Sublist (bedroomsStep cols sel rows) rows := by
  unfold bedroomsStep
  repeat' first | split | dsimp only
  all_goals first | exact List.Sublist.refl _ | exact List.filter_sublist _

theorem bedroomsStep_mono (cols : FCols) (sel : Option (List String))
    {l₁ l₂ : List FRow} (h : List.Sublist l₁ l₂) :
    List.Sublist (bedroomsStep cols sel l₁) (bedroomsStep cols sel l₂) := by
  unfold bedroomsStep
  repeat' first | split | dsimp only
  all_goals first | exact h | exact h.filter _

theorem rangeStep_sublist (present : Bool) (range : Option (Option ℚ × Option ℚ))
    (get : FRow → Option ℚ) (rows : List FRow) :
    List.Sublist (rangeStep present range get rows) rows := by
  unfold rangeStep
  repeat' split
  all_goals
    first
      | exact List.Sublist.refl _
      | exact List.filter_sublist _
      | exact ((List.filter_sublist _).trans (List.filter_sublist _))

theorem rangeStep_mono (present : Bool) (range : Option (Option ℚ × Option ℚ))
    (get : FRow → Option ℚ) {l₁ l₂ : List FRow} (h : List.Sublist l₁ l₂) :
    List.Sublist (rangeStep present range get l₁) (rangeStep present range get l₂) := by
  unfold rangeStep
  repeat' split
  all_goals first | exact h | exact h.filter _ | exact (h.filter _).filter _

theorem outlierStep_sublist (present hide : Bool) (rows : List FRow) :
    List.Sublist (outlierStep present hide rows) rows := by
  unfold outlierStep
  split
  · exact List.filter_sublist _
  · exact List.Sublist.refl _

theorem outlierStep_mono (present hide : Bool) {l₁ l₂ : List FRow}
    (h : List.Sublist l₁ l₂) :
    List.Sublist (outlierStep present hide l₁) (outlierStep present hide l₂) := by
  unfold outlierStep
  split
  · exact h.filter _
  · exact h

theorem priceFilterRows_sublist (mn mx : Option ℚ) (rows : List FRow) :
    List.Sublist (priceFilterRows mn mx rows) rows := by
  unfold priceFilterRows
  repeat' split
  all_goals
    first
      | exact List.Sublist.refl _
      | exact List.filter_sublist _
      | exact ((List.filter_sublist _).trans (List.filter_sublist _))

theorem priceFilterRows_mono (mn mx : Option ℚ) {l₁ l₂ : List FRow}
    (h : List.Sublist l₁ l₂) :
    List.Sublist (priceFilterRows mn mx l₁) (priceFilterRows mn mx l₂) := by
  unfold priceFilterRows
  repeat' split
  all_goals first | exact h | exact h.filter _ | exact (h.filter _).filter _

theorem priceStep_some_sublist (cols : FCols) (range : Option (Option ℚ × Option ℚ))
    (rows out : List FRow) (h : priceStep cols range rows = some out) :
    List.Sublist out rows := by
  cases range with
  | none =>
    dsimp only [priceStep] at h
    injection h with e
    subst e
    exact List.Sublist.refl _
  | some rng =>
    obtain ⟨mn, mx⟩ := rng
    dsimp only [priceStep] at h
    by_cases hc1 : cols.price_sale_idr = true
    · rw [if_pos hc1] at h
      by_cases hc2 : cols.price_idr = true
      · rw [if_pos hc2] at h
        injection h with e
        subst e
        exact priceFilterRows_sublist _ _ _
      · rw [if_neg hc2] at h
        cases h
    · rw [if_neg hc1] at h
      injection h with e
      subst e
      exact List.Sublist.refl _

theorem priceStep_mono (cols : FCols) (range : Option (Option ℚ × Option ℚ))
    {l₁ l₂ o₁ o₂ : List FRow} (h : List.Sublist l₁ l₂)
    (h₁ : priceStep cols range l₁ = some o₁)
    (h₂ : priceStep cols range l₂ = some o₂) : List.Sublist o₁ o₂ := by
  cases range with
  | none =>
    dsimp only [priceStep] at h₁ h₂
    injection h₁ with e₁
    injection h₂ with e₂
    subst e₁; subst e₂
    exact h
  | some rng =>
    obtain ⟨mn, mx⟩ := rng
    dsimp only [priceStep] at h₁ h₂
    by_cases hc1 : cols.price_sale_idr = true
    · rw [if_pos hc1] at h₁ h₂
      by_cases hc2 : cols.price_idr = true
      · rw [if_pos hc2] at h₁ h₂
        injection h₁ with e₁
        injection h₂ with e₂
        subst e₁; subst e₂
        exact priceFilterRows_mono _ _ h
      · rw [if_neg hc2] at h₁
        cases h₁
    · rw [if_neg hc1] at h₁ h₂
      injection h₁ with e₁
      injection h₂ with e₂
      subst e₁; subst e₂
      exact h

/-! ### Pipeline tightening lemmas -/

theorem preRows_mono (cols : FCols) (f : GlobalFilters) {l₁ l₂ : List FRow}
    (h : List.Sublist l₁ l₂) :
    List.Sublist (preRows cols f l₁) (preRows cols f l₂) := by
  unfold preRows
  exact bedroomsStep_mono _ _ (sellerStep_mono _ _ (isinStep_mono _ _ _
    (ownershipStep_mono _ _ (isinStep_mono _ _ _ (isinStep_mono _ _ _
      (listingTypeStep_mono _ _ (dateStep_mono _ _ h)))))))

theorem postRows_mono (cols : FCols) (f : GlobalFilters) {l₁ l₂ : List FRow}
    (h : List.Sublist l₁ l₂) :
    List.Sublist (postRows cols f l₁) (postRows cols f l₂) := by
  unfold postRows
  exact outlierStep_mono _ _ (rangeStep_mono _ _ _ (rangeStep_mono _ _ _
    (rangeStep_mono _ _ _ h)))

theorem tightens_horizon {S S' : GlobalFilters} (ht : Tightens S' S) :
    S'.assumed_freehold_horizon = S.assumed_freehold_horizon := by
  cases ht <;> rfl

theorem pipeRows_mono_same_post {S S' : GlobalFilters} (cols : FCols) (rows : List FRow)
    (hpre : List.Sublist (preRows cols S' rows) (preRows cols S rows))
    (hprice : S'.price_range = S.price_range)
    (hrent : S'.rent_range = S.rent_range)
    (hbuild : S'.building_size_range = S.building_size_range)
    (hland : S'.land_size_range = S.land_size_range)
    (hhide : S'.hide_outliers = S.hide_outliers)
    {o o' : List FRow}
    (h' : pipeRows cols S' rows = some o')
    (h : pipeRows cols S rows = some o) : List.Sublist o' o := by
  unfold pipeRows at h' h
  rw [hprice] at h'
  cases hp' : priceStep cols S.price_range (preRows cols S' rows) with
  | none => rw [hp'] at h'; cases h'
  | some rs' =>
    rw [hp'] at h'
    cases hp : priceStep cols S.price_range (preRows cols S rows) with
    | none => rw [hp] at h; cases h
    | some rs =>
      rw [hp] at h
      injection h' with e'
      injection h with e
      subst e'
      subst e
      have hsub := priceStep_mono cols S.price_range hpre hp' hp
      unfold postRows
      rw [hrent, hbuild, hland, hhide]
      exact outlierStep_mono _ _ (rangeStep_mono _ _ _ (rangeStep_mono _ _ _
        (rangeStep_mono _ _ _ hsub)))

theorem pipeRows_mono_same_pre {S S' : GlobalFilters} (cols : FCols) (rows : List FRow)
    (hpre : preRows cols S' rows = preRows cols S rows)
    (hprice : S'.price_range = S.price_range)
    (hpost : ∀ rs : List FRow, List.Sublist (postRows cols S' rs) (postRows cols S rs))
    {o o' : List FRow}
    (h' : pipeRows cols S' rows = some o')
    (h : pipeRows cols S rows = some o) : List.Sublist o' o := by
  unfold pipeRows at h' h
  rw [hpre, hprice] at h'
  cases hp : priceStep cols S.price_range (preRows cols S rows) with
  | none => rw [hp] at h'; cases h'
  | some rs =>
    rw [hp] at h' h
    injection h' with e'
    injection h with e
    subst e'
    subst e
    exact hpost rs

theorem pipeRows_tightens {S S' : GlobalFilters} (ht : Tightens S' S) (cols : FCols)
    (rows : List FRow) {o o' : List FRow}
    (h' : pipeRows cols S' rows = some o') (h : pipeRows cols S rows = some o) :
    List.Sublist o' o := by
  cases ht with
  | dateStart S t hd =>
    refine pipeRows_mono_same_post cols rows ?_ ?_ ?_ ?_ ?_ ?_ h' h
    · unfold preRows
      apply bedroomsStep_mono
      apply sellerStep_mono
      apply isinStep_mono
      apply ownershipStep_mono
      apply isinStep_mono
      apply isinStep_mono
      apply listingTypeStep_mono
      have he : S.date_range = (none, S.date_range.2) := by rw [← hd]
      have hts := dateStep_tighten_start cols t S.date_range.2 rows
      rw [← he] at hts
      exact hts
    · rfl
    · rfl
    · rfl
    · rfl
    · rfl
  | dateEnd S t hd =>
    refine pipeRows_mono_same_post cols rows ?_ ?_ ?_ ?_ ?_ ?_ h' h
    · unfold preRows
      apply bedroomsStep_mono
      apply sellerStep_mono
      apply isinStep_mono
      apply ownershipStep_mono
      apply isinStep_mono
      apply isinStep_mono
      apply listingTypeStep_mono
      have he : S.date_range = (S.date_range.1, none) := by rw [← hd]
      have hts := dateStep_tighten_end cols S.date_range.1 t rows
      rw [← he] at hts
      exact hts
    · rfl
    · rfl
    · rfl
    · rfl
    · rfl
  | listingType S t hd =>
    refine pipeRows_mono_same_post cols rows ?_ ?_ ?_ ?_ ?_ ?_ h' h
    · unfold preRows
      apply bedroomsStep_mono
      apply sellerStep_mono
      apply isinStep_mono
      apply ownershipStep_mono
      apply isinStep_mono
      apply isinStep_mono
      rw [hd]
      exact listingTypeStep_sublist cols (some t) _
    · rfl
    · rfl
    · rfl
    · rfl
    · rfl
  | propertyTypes S l hd =>
    refine pipeRows_mono_same_post cols rows ?_ ?_ ?_ ?_ ?_ ?_ h' h
    · unfold preRows
      apply bedroomsStep_mono
      apply sellerStep_mono
      apply isinStep_mono
      apply ownershipStep_mono
      apply isinStep_mono
      rw [hd]
      exact isinStep_sublist _ (some l) _ _
    · rfl
    · rfl
    · rfl
    · rfl
    · rfl
  | areas S l hd =>
    refine pipeRows_mono_same_post cols rows ?_ ?_ ?_ ?_ ?_ ?_ h' h
    · unfold preRows
      apply bedroomsStep_mono
      apply sellerStep_mono
      apply isinStep_mono
      apply ownershipStep_mono
      rw [hd]
      exact isinStep_sublist _ (some l) _ _
    · rfl
    · rfl
    · rfl
    · rfl
    · rfl
  | bedroomsBucket S l hd =>
    refine pipeRows_mono_same_post cols rows ?_ ?_ ?_ ?_ ?_ ?_ h' h
    · unfold preRows
      rw [hd]
      exact bedroomsStep_sublist cols (some l) _
    · rfl
    · rfl
    · rfl
    · rfl
    · rfl
  | ownership S l hd =>
    refine pipeRows_mono_same_post cols rows ?_ ?_ ?_ ?_ ?_ ?_ h' h
    · unfold preRows
      apply bedroomsStep_mono
      apply sellerStep_mono
      apply isinStep_mono
      rw [hd]
      exact ownershipStep_sublist cols (some l) _
    · rfl
    · rfl
    · rfl
    · rfl
    · rfl
  | propertyStatus S l hd =>
    refine pipeRows_mono_same_post cols rows ?_ ?_ ?_ ?_ ?_ ?_ h' h
    · unfold preRows
      apply bedroomsStep_mono
      apply sellerStep_mono
      rw [hd]
      exact isinStep_sublist _ (some l) _ _
    · rfl
    · rfl
    · rfl
    · rfl
    · rfl
  | sellerType S l hd =>
    refine pipeRows_mono_same_post cols rows ?_ ?_ ?_ ?_ ?_ ?_ h' h
    · unfold preRows
      apply bedroomsStep_mono
      rw [hd]
      exact sellerStep_sublist cols (some l) _
    · rfl
    · rfl
    · rfl
    · rfl
    · rfl
  | priceRange S rng hd =>
    unfold pipeRows at h' h
    have hpre : preRows cols { S with price_range := some rng } rows = preRows cols S rows := rfl
    have hpr : ({ S with price_range := some rng } : GlobalFilters).price_range = some rng := rfl
    rw [hpre, hpr] at h'
    rw [hd] at h
    dsimp only [priceStep] at h
    injection h with e
    cases hp' : priceStep cols (some rng) (preRows cols S rows) with
    | none => rw [hp'] at h'; cases h'
    | some rs' =>
      rw [hp'] at h'
      injection h' with e'
      subst e'
      subst e
      have hsub : List.Sublist rs' (preRows cols S rows) :=
        priceStep_some_sublist _ _ _ _ hp'
      have hpost : postRows cols { S with price_range := some rng } rs' =
          postRows cols S rs' := rfl
      rw [hpost]
      exact postRows_mono cols S hsub
  | rentRange S rng hd =>
    refine pipeRows_mono_same_pre cols rows ?_ ?_ ?_ h' h
    · rfl
    · rfl
    · intro rs
      unfold postRows
      apply outlierStep_mono
      apply rangeStep_mono
      apply rangeStep_mono
      rw [hd]
      exact rangeStep_sublist _ (some rng) _ _
  | buildingSizeRange S rng hd =>
    refine pipeRows_mono_same_pre cols rows ?_ ?_ ?_ h' h
    · rfl
    · rfl
    · intro rs
      unfold postRows
      apply outlierStep_mono
      apply rangeStep_mono
      rw [hd]
      exact rangeStep_sublist _ (some rng) _ _
  | landSizeRange S rng hd =>
    refine pipeRows_mono_same_pre cols rows ?_ ?_ ?_ h' h
    · rfl
    · rfl
    · intro rs
      unfold postRows
      apply outlierStep_mono
      rw [hd]
      exact rangeStep_sublist _ (some rng) _ _
  | hideOutliers S hd =>
    refine pipeRows_mono_same_pre cols rows ?_ ?_ ?_ h' h
    · rfl
    · rfl
    · intro rs
      unfold postRows
      rw [hd]
      exact outlierStep_sublist _ _ _

/-! ### Default-spec evaluation lemmas -/

theorem dateStep_none (cols : FCols) (rows : List FRow) :
    dateStep cols (none, none) rows = rows := by
  unfold dateStep
  split <;> rfl

theorem preRows_default (cols : FCols) (rows : List FRow) :
    preRows cols DEFAULT_FILTERS rows = rows := by
  show dateStep cols (none, none) rows = rows
  exact dateStep_none cols rows

theorem pipeRows_default (cols : FCols) (rows : List FRow) :
    pipeRows cols DEFAULT_FILTERS rows = some rows := by
  unfold pipeRows
  rw [preRows_default]
  rfl

theorem getD_map_flag (f : Option ℚ → Bool) (hf : f none = false)
    (col : List (Option ℚ)) (i : ℕ) :
    ((col.map f).getD i false = true) ↔
      ∃ v, col.getD i none = some v ∧ f (some v) = true := by
  induction col generalizing i with
  | nil => simp
  | cons c cs ih =>
    cases i with
    | zero => cases c <;> simp [hf]
    | succ n => simpa using ih n

theorem getD_some_mem {col : List (Option ℚ)} {i : ℕ} {v : ℚ}
    (h : col.getD i none = some v) : some v ∈ col := by
  induction col generalizing i with
  | nil => simp [List.getD] at h
  | cons c cs ih =>
    cases i with
    | zero => simp at h; simp [h]
    | succ n => exact List.mem_cons_of_mem _ (ih (by simpa using h))

/-! ### Claim theorems: enrichment -/

/-- C1. For every input row of `enrich_listings`, the derived
`price_sale_idr` is non-null only if the row's `listing_type`, compared
case-insensitively, equals `"for sale"` (the `saleMask`); for every sale
row it is the numeric value of `sale_price_idr` when that is non-null,
else the numeric value of `price_idr`; and it is null for all non-sale
rows. -/
theorem priceSale_population_law (cols : Cols) (r : Row) :
    enrichPriceSale cols r =
      if saleMask cols r then
        match toNumeric (getCell cols.sale_price_idr r.sale_price_idr) with
        | some q => some q
        | none => toNumeric (getCell cols.price_idr r.price_idr)
      else none := by
  obtain ⟨lt, pi, spi, rm, rp, rpb, ow, ld, le, de, bs, ls⟩ := cols
  simp only [enrichPriceSale, computePriceSaleIdr, coerceNumericCols, saleMask, getCell]
  cases spi <;> cases pi <;>
    cases h : (lt && (cellLower r.listing_type == "for sale")) <;>
      cases hs : toNumeric r.sale_price_idr <;>
        simp [h, hs, toNumeric_toNumericCell, toNumeric_null]

/-- C2. For every row whose `rent_price_month_idr` is null after coercion,
whose `price_idr` is a non-null number `p`, and whose `rent_period`
(lower-cased and stripped) is a daily, weekly, monthly or yearly alias,
`rent_price_month_idr_norm` equals `p*30`, `p*4.3`, `p`, `p/12`
respectively; and a row with a non-null direct monthly rent keeps that
value unchanged. -/
theorem rentNorm_alias_law (cols : Cols) (r : Row) :
    (∀ p : ℚ,
      cols.rent_period_base = false →
      cols.rent_period = true →
      cols.price_idr = true →
      (cols.rent_price_month_idr = true → toNumeric r.rent_price_month_idr = none) →
      toNumeric r.price_idr = some p →
      (cellLowerStrip r.rent_period ∈ dailyAliases →
          enrichRentNorm cols r = some (p * 30)) ∧
      (cellLowerStrip r.rent_period ∈ weeklyAliases →
          enrichRentNorm cols r = some (p * (43 / 10))) ∧
      (cellLowerStrip r.rent_period ∈ monthlyAliases →
          enrichRentNorm cols r = some p) ∧
      (cellLowerStrip r.rent_period ∈ yearlyAliases →
          enrichRentNorm cols r = some (p / 12))) ∧
    (∀ m : ℚ, cols.rent_price_month_idr = true →
      toNumeric r.rent_price_month_idr = some m →
      enrichRentNorm cols r = some m) := by
  obtain ⟨lt, pi, spi, rm, rp, rpb, ow, ld, le, de, bs, ls⟩ := cols
  constructor
  · intro p hbase hper hpi hnull hp
    subst hbase; subst hper; subst hpi
    refine ⟨?_, ?_, ?_, ?_⟩
    · intro hc
      simp only [dailyAliases, List.mem_cons, List.not_mem_nil, or_false] at hc
      cases rm
      · rcases hc with h | h | h <;>
          simp [enrichRentNorm, normaliseRentMonth, coerceNumericCols,
            toNumeric_toNumericCell, hp, h, dailyAliases, weeklyAliases,
            monthlyAliases, yearlyAliases, List.contains, List.elem]
      · have h0 := hnull rfl
        rcases hc with h | h | h <;>
          simp [enrichRentNorm, normaliseRentMonth, coerceNumericCols,
            toNumeric_toNumericCell, hp, h0, h, dailyAliases, weeklyAliases,
            monthlyAliases, yearlyAliases, List.contains, List.elem]
    · intro hc
      simp only [weeklyAliases, List.mem_cons, List.not_mem_nil, or_false] at hc
      cases rm
      · rcases hc with h | h | h <;>
          simp [enrichRentNorm, normaliseRentMonth, coerceNumericCols,
            toNumeric_toNumericCell, hp, h, dailyAliases, weeklyAliases,
            monthlyAliases, yearlyAliases, List.contains, List.elem]
      · have h0 := hnull rfl
        rcases hc with h | h | h <;>
          simp [enrichRentNorm, normaliseRentMonth, coerceNumericCols,
            toNumeric_toNumericCell, hp, h0, h, dailyAliases, weeklyAliases,
            monthlyAliases, yearlyAliases, List.contains, List.elem]
    · intro hc
      simp only [monthlyAliases, List.mem_cons, List.not_mem_nil, or_false] at hc
      cases rm
      · rcases hc with h | h | h <;>
          simp [enrichRentNorm, normaliseRentMonth, coerceNumericCols,
            toNumeric_toNumericCell, hp, h, dailyAliases, weeklyAliases,
            monthlyAliases, yearlyAliases, List.contains, List.elem]
      · have h0 := hnull rfl
        rcases hc with h | h | h <;>
          simp [enrichRentNorm, normaliseRentMonth, coerceNumericCols,
            toNumeric_toNumericCell, hp, h0, h, dailyAliases, weeklyAliases,
            monthlyAliases, yearlyAliases, List.contains, List.elem]
    · intro hc
      simp only [yearlyAliases, List.mem_cons, List.not_mem_nil, or_false] at hc
      cases rm
      · rcases hc with h | h | h | h | h <;>
          simp [enrichRentNorm, normaliseRentMonth, coerceNumericCols,
            toNumeric_toNumericCell, hp, h, dailyAliases, weeklyAliases,
            monthlyAliases, yearlyAliases, List.contains, List.elem]
      · have h0 := hnull rfl
        rcases hc with h | h | h | h | h <;>
          simp [enrichRentNorm, normaliseRentMonth, coerceNumericCols,
            toNumeric_toNumericCell, hp, h0, h, dailyAliases, weeklyAliases,
            monthlyAliases, yearlyAliases, List.contains, List.elem]
  · intro m hrm hm
    subst hrm
    cases rpb <;> cases rp <;>
      simp [enrichRentNorm, normaliseRentMonth, coerceNumericCols,
        toNumeric_toNumericCell, hm]

/-- C2 witness: a dataframe without `rent_period_base`; a `"daily"` row
with fallback price 100 normalises to 3000, and a direct monthly rent of
999 is kept unchanged. -/
theorem rentNorm_alias_law_witness :
    enrichRentNorm rentCols rentRowDaily = some 3000 ∧
    enrichRentNorm rentCols rentRowKeep = some 999 := by
  constructor
  · have h := ((rentNorm_alias_law rentCols rentRowDaily).1 100 rfl rfl rfl
      (fun _ => rfl) rfl).1 (by decide)
    exact h.trans (by norm_num)
  · exact (rentNorm_alias_law rentCols rentRowKeep).2 999 rfl rfl

/-- C3. The claim (and the string-matching branch of
`_estimate_lease_years` itself) expects a leasehold row with
`lease_duration = "25 years"` to yield `lease_years_remaining = 25`, but
`enrich_listings` coerces the `lease_duration` column with
`pd.to_numeric(errors="coerce")` before the row-wise estimation, turning
the text into null: end-to-end the derived value is null, while the
standalone extractor on the uncoerced row does give 25. -/
theorem leaseYears_text_duration_bug :
    enrichLeaseYears allCols 2026 leaseTextRow = none ∧
    estimateLeaseYears allCols 2026 leaseTextRow = some 25 := by
  refine ⟨?_, ?_⟩ <;> decide

/-- C4. For every row, `price_per_sqm_idr_calc` is sale price divided by
building size when the building size is a non-null non-zero number, else
sale price divided by land size (null when that is also null or zero) —
the model is total, so no arithmetic error or infinity can arise; and the
concrete row with building size 0, land size 200, sale price 400,000,000
yields 2,000,000. -/
theorem pricePerSqm_fallback_law :
    (∀ (cols : Cols) (r : Row),
      (enrichPricePerSqm cols r).1 =
        (match toNumeric (getCell cols.building_size_sqm r.building_size_sqm) with
         | some b =>
            if b = 0 then
              divOpt (enrichPriceSale cols r)
                (zeroToNull (toNumeric (getCell cols.land_size_sqm r.land_size_sqm)))
            else divOpt (enrichPriceSale cols r) (some b)
         | none =>
            divOpt (enrichPriceSale cols r)
              (zeroToNull (toNumeric (getCell cols.land_size_sqm r.land_size_sqm))))) ∧
    (enrichPricePerSqm allCols ppsmRow).1 = some 2000000 := by
  constructor
  · intro cols r
    simp only [enrichPricePerSqm, computePricePerSqm, enrichPriceSale]
    rw [toNumeric_getCell_coerce_building, toNumeric_getCell_coerce_land]
    exact divOpt_zeroToNull_char _ _ _
  · have hfs : cellLower (Cell.str "for sale") = "for sale" := by decide
    simp only [enrichPricePerSqm, computePricePerSqm]
    norm_num [divOpt, zeroToNull, coerceNumericCols, computePriceSaleIdr, saleMask,
      getCell, toNumeric, toNumericCell, ppsmRow, nullRow, allCols, hfs]

/-! ### Claim theorem: outlier flagging -/

/-- C5. For one monitored column of the enriched snapshot, the outlier
flag of row `i` is true iff the row's value is non-null and strictly below
the 1st percentile or strictly above the 99th percentile of all non-null
values of the column; in particular a column with no non-null values has
an all-false flag column (the right-hand side is then unsatisfiable). -/
theorem outlier_flag_law (col : List (Option ℚ)) (i : ℕ) :
    (flagOutliersCol col (1/100) (99/100)).getD i false = true ↔
      ∃ v, col.getD i none = some v ∧
        (v < quantileLinear (colVals col) (1/100) ∨
         quantileLinear (colVals col) (99/100) < v) := by
  by_cases hemp : (colVals col).isEmpty
  · simp only [flagOutliersCol, hemp, if_true]
    rw [getD_map_flag (fun _ => false) rfl]
    constructor
    · rintro ⟨v, hv, hfalse⟩
      cases hfalse
    · rintro ⟨v, hv, _⟩
      exfalso
      have hmem := getD_some_mem hv
      have : (id (some v) : Option ℚ) = none := by
        have hnil : colVals col = [] := by simpa [List.isEmpty_iff] using hemp
        exact (List.filterMap_eq_nil_iff.mp hnil) _ hmem
      simp at this
  · unfold flagOutliersCol
    rw [if_neg hemp]
    rw [getD_map_flag (fun c =>
      match c with
      | some v =>
        decide (v < quantileLinear (colVals col) (1/100) ∨
          quantileLinear (colVals col) (99/100) < v)
      | none => false) rfl]
    simp only [decide_eq_true_eq]

/-! ### Claim theorems: filters -/

/-- C8 (amended). Adding one constraint to a filter spec never increases
the row count of `apply_global_filters`, whenever both the base and the
tightened application return a dataframe (the price-range filter on a
dataframe that has `price_sale_idr` but lacks `price_idr` raises instead
of returning, which is the sole exception). -/
theorem filter_monotonicity_on_success (df : FDataFrame) {S S' : GlobalFilters}
    (ht : Tightens S' S) {o o' : FDataFrame}
    (h' : applyGlobalFilters df S' = some o')
    (h : applyGlobalFilters df S = some o) :
    o'.rows.length ≤ o.rows.length := by
  unfold applyGlobalFilters at h' h
  by_cases hemp : df.rows.isEmpty = true
  · rw [if_pos hemp] at h' h
    injection h' with e'
    injection h with e
    rw [← e', ← e]
  · rw [if_neg hemp] at h' h
    cases hp' : pipeRows df.cols S' df.rows with
    | none => rw [hp'] at h'; cases h'
    | some rs' =>
      rw [hp'] at h'
      cases hp : pipeRows df.cols S df.rows with
      | none => rw [hp] at h; cases h
      | some rs =>
        rw [hp] at h
        have hsub := pipeRows_tightens ht df.cols df.rows hp' hp
        rw [tightens_horizon ht] at h'
        dsimp only at h' h
        by_cases hcond : (0 < S.assumed_freehold_horizon ∧ df.cols.price_per_sqm_idr_calc = true)
        · rw [if_pos hcond] at h' h
          injection h' with e'
          injection h with e
          rw [← e', ← e]
          simpa using hsub.length_le
        · rw [if_neg hcond] at h' h
          injection h' with e'
          injection h with e
          rw [← e', ← e]
          exact hsub.length_le

/-- C8 counterexample to the claim as stated: on a one-row dataframe with
a `price_sale_idr` column but no `price_idr` column, adding a price-range
constraint to the default spec makes `apply_global_filters` raise
(`Series.fillna(None)`), so the tightened application has no row count at
all, while the base spec returns the dataframe unchanged. -/
theorem filter_monotonicity_crash_counterexample :
    Tightens priceTightSpec DEFAULT_FILTERS ∧
    applyGlobalFilters dfP DEFAULT_FILTERS = some dfP ∧
    applyGlobalFilters dfP priceTightSpec = none := by
  refine ⟨Tightens.priceRange DEFAULT_FILTERS (some 0, none) rfl, ?_, ?_⟩
  · rfl
  · rfl

/-- C8 witness: tightening the default spec with a listing-type constraint
keeps the row count from growing (2 rows to 1). -/
theorem filter_monotonicity_on_success_witness :
    applyGlobalFilters dfW tightSpec = some ⟨dfW.cols, [saleFRow]⟩ ∧
    applyGlobalFilters dfW DEFAULT_FILTERS = some dfW ∧
    (FDataFrame.mk dfW.cols [saleFRow]).rows.length ≤ dfW.rows.length := by
  have h1 : applyGlobalFilters dfW tightSpec = some ⟨dfW.cols, [saleFRow]⟩ := by decide
  have h2 : applyGlobalFilters dfW DEFAULT_FILTERS = some dfW := by decide
  exact ⟨h1, h2,
    filter_monotonicity_on_success dfW (Tightens.listingType DEFAULT_FILTERS "for sale" rfl) h1 h2⟩

/-- C10. For every non-empty dataframe with the `price_per_sqm_idr_calc`
column and any spec with a positive assumed freehold horizon,
`apply_global_filters` returns a dataframe that additionally has the
`price_per_sqm_per_year_freehold_assumed` column, equal per row to
`price_per_sqm_idr_calc` divided by the horizon; in particular the default
no-constraint spec (horizon 30) returns the same rows with the extra
column, not the input schema unchanged (the input itself is never mutated:
the embedding is pure and the result is a new value). -/
theorem freehold_assumed_column_law :
    (∀ (df : FDataFrame) (f : GlobalFilters) (out : FDataFrame),
      df.rows ≠ [] →
      df.cols.price_per_sqm_idr_calc = true →
      0 < f.assumed_freehold_horizon →
      applyGlobalFilters df f = some out →
      out.cols.ppsy_freehold_assumed = true ∧
        ∀ r ∈ out.rows,
          r.ppsy_freehold_assumed =
            r.price_per_sqm_idr_calc.map (fun v => v / (f.assumed_freehold_horizon : ℚ))) ∧
    (∀ df : FDataFrame, df.rows ≠ [] → df.cols.price_per_sqm_idr_calc = true →
      applyGlobalFilters df DEFAULT_FILTERS =
        some ⟨{ df.cols with ppsy_freehold_assumed := true },
              df.rows.map (ppsyUpdRow 30)⟩) := by
  constructor
  · intro df f out hne hcol hpos happ
    unfold applyGlobalFilters at happ
    rw [if_neg (by simpa [List.isEmpty_iff] using hne)] at happ
    cases hp : pipeRows df.cols f df.rows with
    | none => rw [hp] at happ; cases happ
    | some rs =>
      rw [hp] at happ
      dsimp only at happ
      rw [if_pos ⟨hpos, hcol⟩] at happ
      injection happ with e
      subst e
      constructor
      · rfl
      · intro r hr
        simp only [List.mem_map] at hr
        obtain ⟨r0, _, rfl⟩ := hr
        rfl
  · intro df hne hcol
    unfold applyGlobalFilters
    rw [if_neg (by simpa [List.isEmpty_iff] using hne)]
    rw [pipeRows_default]
    dsimp only
    rw [if_pos ⟨by decide, hcol⟩]
    rfl

/-- C10 witness: on a concrete one-row dataframe the default spec adds the
assumed-freehold PPSY column. -/
theorem freehold_assumed_column_law_witness :
    applyGlobalFilters dfC10 DEFAULT_FILTERS =
      some ⟨{ dfC10.cols with ppsy_freehold_assumed := true },
            dfC10.rows.map (ppsyUpdRow 30)⟩ :=
  freehold_assumed_column_law.2 dfC10 (by decide) rfl

/-- C7. With a non-empty ownership selection and an `ownership_type`
column: when a `listing_type` column exists, the ownership filtering step
of `apply_global_filters` retains every row whose listing type is not
`"for sale"` (in particular every `"for rent"` row) regardless of its
ownership value, and keeps a `"for sale"` row exactly when its
`ownership_type` is in the selection; when no `listing_type` column
exists, the membership test applies to every row. -/
theorem ownership_rental_exemption (cols : FCols) (sel : List String)
    (rows : List FRow) (r : FRow) (hsel : sel ≠ []) (hown : cols.ownership_type = true) :
    (cols.listing_type = true →
      ((cellLower r.listing_type == "for sale") = false →
        (r ∈ ownershipStep cols (some sel) rows ↔ r ∈ rows)) ∧
      ((cellLower r.listing_type == "for sale") = true →
        (r ∈ ownershipStep cols (some sel) rows ↔
          r ∈ rows ∧ cellInSel r.ownership_type sel = true))) ∧
    (cols.listing_type = false →
      (r ∈ ownershipStep cols (some sel) rows ↔
        r ∈ rows ∧ cellInSel r.ownership_type sel = true)) := by
  have hemp : sel.isEmpty = false := by
    cases sel
    · exact absurd rfl hsel
    · rfl
  refine ⟨fun hlt => ⟨fun hmask => ?_, fun hmask => ?_⟩, fun hlt => ?_⟩
  · simp [ownershipStep, hemp, hown, hlt, hmask, List.mem_filter]
  · simp [ownershipStep, hemp, hown, hlt, hmask, List.mem_filter]
  · simp [ownershipStep, hemp, hown, hlt, List.mem_filter]

/-- C7 witness: with ownership selection `["Freehold"]` over a sale row
and a rent row both labelled `Leasehold`, the rent row is retained and the
sale row is removed. -/
theorem ownership_rental_exemption_witness :
    rentFRow ∈ ownershipStep dfW.cols (some ["Freehold"]) dfW.rows ∧
    saleFRow ∉ ownershipStep dfW.cols (some ["Freehold"]) dfW.rows := by
  constructor
  · exact (((ownership_rental_exemption dfW.cols ["Freehold"] dfW.rows rentFRow
      (by decide) rfl).1 rfl).1 (by decide)).mpr (by decide)
  · intro hmem
    have hx := (((ownership_rental_exemption dfW.cols ["Freehold"] dfW.rows saleFRow
      (by decide) rfl).1 rfl).2 (by decide)).mp hmem
    exact absurd hx.2 (by decide)

/-! ### Claim theorems: loader parse-failure reasons -/

/-- After sentinel normalization, a cell can never be classified as
`"sentinel"` or `"blank"`: its recorded reason is null or
`"unparsed_format"`. -/
theorem failReason_cases (g : Cell → Option ℤ) (ps : List (String → Option ℤ)) (c : Cell) :
    (multiParseCell g ps (normalizeSentinelCell c)).2 = none ∨
    (multiParseCell g ps (normalizeSentinelCell c)).2 = some "unparsed_format" := by
  cases c with
  | null => left; rfl
  | num q =>
    simp only [normalizeSentinelCell, multiParseCell, failReason]
    cases hp : parsedCell g ps (Cell.num q) <;> simp
  | str s =>
    simp only [normalizeSentinelCell]
    by_cases hsent : SENTINELS.contains (pyStrip s) = true
    · rw [if_pos hsent]
      left
      rfl
    · rw [if_neg hsent]
      simp only [multiParseCell, failReason]
      cases hp : parsedCell g ps (Cell.str s) with
      | some t => simp
      | none =>
        have hblank : ¬(pyStrip s = "") := by
          intro hb
          have hc : SENTINELS.contains (pyStrip s) = true := by
            rw [hb]
            decide
          exact hsent hc
        have hsent2 : pyStrip s ∉ SENTINELS := by
          intro hm
          exact hsent (List.elem_eq_true_of_mem hm)
        simp [hp, hsent2, hblank]

/-- C6 (amended). In `_load_data_impl`, sentinel normalization runs before
the `scraped_at` multi-parse, so sentinel and whitespace-only raw values
arrive as null, are excluded by the `raw.notna()` gate, and get a null
failure reason; the only reason the pipeline can record (for any generic
parser and any pattern list) is `"unparsed_format"`, and the row whose raw
value is the empty string records null — not `"sentinel"`. -/
theorem scrapedAt_fail_reason_law :
    (∀ (generic : Cell → Option ℤ) (patterns : List (String → Option ℤ))
        (raw : List Cell) (r : Option String),
      r ∈ (loadScrapedAt generic patterns raw).2 →
      r = none ∨ r = some "unparsed_format") ∧
    (∀ (generic : Cell → Option ℤ) (patterns : List (String → Option ℤ)),
      (loadScrapedAt generic patterns [Cell.str ""]).2 = [none]) := by
  constructor
  · intro g ps raw r hr
    simp only [loadScrapedAt, multiParseDatetime, List.map_map, List.mem_map,
      Function.comp] at hr
    obtain ⟨c, _, rfl⟩ := hr
    exact failReason_cases g ps c
  · intro g ps
    rfl

/-- C6 counterexample to the claim as stated: the empty-string row's
recorded failure reason is null, not `"sentinel"` (and hence not one of
the three claimed values). -/
theorem scrapedAt_empty_sentinel_counterexample :
    (loadScrapedAt noParse [] [Cell.str ""]).2 = [none] ∧
    (loadScrapedAt noParse [] [Cell.str ""]).2 ≠ [some "sentinel"] := by
  constructor
  · rfl
  · decide

/-- C6 witness: a non-sentinel unparsable string records
`"unparsed_format"`, which the amended law allows. -/
theorem scrapedAt_fail_reason_law_witness :
    (loadScrapedAt noParse [] [Cell.str "not a date"]).2 = [some "unparsed_format"] ∧
    (some "unparsed_format" = (none : Option String) ∨
     some "unparsed_format" = some "unparsed_format") := by
  refine ⟨by decide, ?_⟩
  exact scrapedAt_fail_reason_law.1 noParse [] [Cell.str "not a date"]
    (some "unparsed_format") (by decide)

/-! ### Claim theorems: currency projection -/

/-- C9 counterexample to the claim as stated: with IDR series
`[15000, 30000]`, USD fallback `[1, null]` and rate 15000, the second
row's projected value is null (the whole fallback series is returned
because it has SOME non-null entry), not `30000/15000 = 2` as the per-row
reading requires. -/
theorem currency_per_row_counterexample :
    seriesToCurrency [some 15000, some 30000] "USD" (some [some 1, none]) 15000 =
      [some 1, none] ∧
    seriesToCurrency [some 15000, some 30000] "USD" (some [some 1, none]) 15000 ≠
      [some 1, some 2] := by
  constructor
  · rfl
  · decide

/-- C9 (amended). `series_to_currency` decides per series, not per row:
for a non-IDR target, a provided fallback series with at least one
non-null entry is returned verbatim (rows whose USD entry is null stay
null); only when no fallback is provided (or it is entirely null) is the
whole IDR series divided by the fx rate; IDR passes through unchanged.
`scalar_to_currency` does prefer the fallback per value.  Both functions
are pure in the embedding: the IDR source is never mutated. -/
theorem currency_projection_law :
    (∀ (series fb : List (Option ℚ)) (target : String) (fx : ℚ),
      target ≠ "IDR" → fb.any (fun v => v.isSome) = true →
      seriesToCurrency series target (some fb) fx = fb) ∧
    (∀ (series : List (Option ℚ)) (target : String) (fx : ℚ),
      target ≠ "IDR" →
      seriesToCurrency series target none fx =
        series.map (fun v => v.map (fun x => x / fx))) ∧
    (∀ (series : List (Option ℚ)) (fb : Option (List (Option ℚ))) (fx : ℚ),
      seriesToCurrency series "IDR" fb fx = series) ∧
    (∀ (v : ℚ) (target : String) (fbv : Option ℚ) (fx : ℚ),
      target ≠ "IDR" →
      scalarToCurrency (some v) target fbv fx =
        (match fbv with
         | some fb => some fb
         | none => some (v / fx))) ∧
    (∀ (v : ℚ) (fbv : Option ℚ) (fx : ℚ),
      scalarToCurrency (some v) "IDR" fbv fx = some v) := by
  refine ⟨?_, ?_, ?_, ?_, ?_⟩
  · intro series fb target fx ht hany
    simp [seriesToCurrency, ht, hany]
  · intro series target fx ht
    simp [seriesToCurrency, ht]
  · intro series fb fx
    simp [seriesToCurrency]
  · intro v target fbv fx ht
    simp [scalarToCurrency, ht]
  · intro v fbv fx
    simp [scalarToCurrency]

/-- C9 witness: whole-series fallback preference and scalar fx fallback at
concrete inputs. -/
theorem currency_projection_law_witness :
    seriesToCurrency [some 15000] "USD" (some [some 1]) 15000 = [some 1] ∧
    scalarToCurrency (some 30000) "USD" none 15000 = some (30000 / 15000) := by
  constructor
  · exact currency_projection_law.1 [some 15000] [some 1] "USD" 15000
      (by decide) (by decide)
  · exact currency_projection_law.2.2.2.1 30000 "USD" none 15000 (by decide)

end Dashboard
